import Mathlib

/-!
Shallow embedding of `src/catcher/feature_extraction.py` (the profit-labeling
and feature cross-join engine of the `catcher` repository), together with
theorems settling the claims about it.

Conventions of the embedding:
* prices, commissions and thresholds are rationals (`ℚ`);
* timestamps are integers (`ℤ`), one unit per interval bucket;
* a pandas `NaN` (missing value) is `Option.none`;
* a Python `assert` failure is `Except.error`.
-/

namespace Catcher

/-! ### Profit predicate (`profit`, line 13-33) -/

/-- The numeric profit formula of `profit`:
`sell_price - buy_price - (sell_price + buy_price) * broker_commission`. -/
def profitNet (buy_price sell_price broker_commission : ℚ) : ℚ :=
  sell_price - buy_price - (sell_price + buy_price) * broker_commission

/-- Result of `profit`: a number in numeric mode, a boolean in `as_bool` mode. -/
inductive ProfitResult where
  | num : ℚ → ProfitResult
  | flag : Bool → ProfitResult
deriving DecidableEq

/-- The assertion message of `profit` for a negative threshold. -/
def negThresholdMsg : String :=
  "Negative threshold will lead to money loss. Change it for at least zero value."

/-- Embedding of `profit` (feature_extraction.py line 13-33): asserts
`threshold >= 0`, computes the net result, and returns `result >= threshold`
when `as_bool` else the numeric result. -/
def profit (buy_price sell_price broker_commission threshold : ℚ) (as_bool : Bool) :
    Except String ProfitResult :=
  if threshold < 0 then .error negThresholdMsg
  else
    let result := sell_price - buy_price - (sell_price + buy_price) * broker_commission
    .ok (if as_bool then .flag (decide (result ≥ threshold)) else .num result)

/-- Vectorized per-pair form used by `calc_cross_profit` line 181-185: the
boolean profit fact cast through `.astype('int8')` to an integer 0/1 flag.
The scalar `threshold >= 0` assertion is checked once by the caller. -/
def profitFlag (buy_price sell_price broker_commission threshold : ℚ) : ℤ :=
  if profitNet buy_price sell_price broker_commission ≥ threshold then 1 else 0

/-- Whether a `profit` call succeeded (did not hit the assertion). -/
def exceptIsOk : Except String ProfitResult → Bool
  | .ok _ => true
  | .error _ => false

/-! ### Minimum price for profit (`min_price_for_profit`, line 36-51) -/

/-- Rounding to 2 decimal places, `np.round(x, decimals=2)`. -/
def round2 (x : ℚ) : ℚ := (round (x * 100) : ℚ) / 100

/-- Embedding of `min_price_for_profit` (line 36-51).  The source calls
`scipy.optimize.root` on `fun sell => profit buy_price sell broker_commission`
seeded at `buy_price` and rounds the solution to 2 decimals.  `profitNet` is
affine in the sell price, so for `broker_commission ≠ 1` it has the unique
root `buy_price * (1 + broker_commission) / (1 - broker_commission)`
(theorem `profitNet_root_unique` below); the embedding returns that root,
rounded as the source does. -/
def min_price_for_profit (buy_price broker_commission : ℚ) : ℚ :=
  round2 (buy_price * (1 + broker_commission) / (1 - broker_commission))

/-! ### Cross-profit labeler (`calc_cross_profit`, line 134-193)

A `DataFrame` models the timestamp-indexed input table: the name of its
index, the names of its feature columns other than the price column, and its
rows.  Each `Row` holds the timestamp (the index entry), the value of the
price column and the values of the other feature columns.  The
`pd.DatetimeIndex` precondition asserted at line 155 is imposed by typing the
index entries as timestamps. -/

structure Row where
  datetime : ℤ
  price : ℚ
  rest : List ℚ
deriving DecidableEq

structure DataFrame where
  indexName : String
  otherCols : List String
  rows : List Row
deriving DecidableEq

/-- A row of the cross-joined working table (line 168): the buy-side row
joined with the `price` and `datetime` of a sell-side row (suffix `_sell`). -/
structure CrossRow where
  datetime : ℤ
  price : ℚ
  rest : List ℚ
  price_sell : ℚ
  datetime_sell : ℤ
deriving DecidableEq

/-- Pair one buy-candidate row with one sell-candidate row. -/
def Row.toCross (b s : Row) : CrossRow :=
  ⟨b.datetime, b.price, b.rest, s.price, s.datetime⟩

/-- The cross join `df.join(df[[price_col, dt_str]], how='cross', rsuffix='_sell')`:
every row paired with every row, left-row major as pandas produces it. -/
def crossJoin (rows : List Row) : List CrossRow :=
  rows.flatMap fun b => rows.map fun s => b.toCross s

/-- The `future` marker of line 171: `datetime_sell > datetime`. -/
def CrossRow.future (r : CrossRow) : Bool := r.datetime < r.datetime_sell

/-- The `future` marker cast through `.astype('int')` (line 178). -/
def CrossRow.futureInt (r : CrossRow) : ℤ := if r.future then 1 else 0

/-- The policy dispatch of lines 172-178.  Returns the retained cross rows
and whether a `future` column was added.  The branch structure mirrors the
Python `if`/`elif` chain: `'lookahead'`, `'la'` or a falsy policy filter to
future pairs; `'lookbehind'`/`'lb'` filter to non-future pairs;
`'full'`/`'lookaround'`/`'lar'` keep everything and add the column; any other
value hits no branch, keeping everything with no added column. -/
def applyPolicy (policy : String) (cross : List CrossRow) : List CrossRow × Bool :=
  if policy = "lookahead" ∨ policy = "la" ∨ policy = "" then
    (cross.filter fun r => r.future, false)
  else if policy = "lookbehind" ∨ policy = "lb" then
    (cross.filter fun r => !r.future, false)
  else if policy = "full" ∨ policy = "lookaround" ∨ policy = "lar" then
    (cross, true)
  else
    (cross, false)

/-- Line 160-162: rename the index to `'datetime'` in place when it is not
already so named. -/
def setIndexName (data : DataFrame) : DataFrame :=
  if data.indexName ≠ "datetime" then { data with indexName := "datetime" } else data

/-- The cross rows retained by the policy for a given input table. -/
def calcRetained (data : DataFrame) (policy : String) : List CrossRow :=
  (applyPolicy policy (crossJoin (setIndexName data).rows)).1

/-- Retained cross rows each tagged with the 0/1 profit flag of the
vectorized `profit` call of line 181-185. -/
def labeledPairs (data : DataFrame) (policy : String)
    (broker_commission profit_threshold : ℚ) : List (CrossRow × ℤ) :=
  (calcRetained data policy).map fun r =>
    (r, profitFlag r.price r.price_sell broker_commission profit_threshold)

/-- A row of the returned table (line 187-193): indexed by the buy timestamp,
sell-side columns dropped, `profit` flag attached; the `future` column is
present only under the full/lookaround policies. -/
structure OutRow where
  datetime : ℤ
  price : ℚ
  rest : List ℚ
  future : Option ℤ
  profit : ℤ
deriving DecidableEq

structure OutTable where
  hasFutureCol : Bool
  rows : List OutRow
deriving DecidableEq

/-- Embedding of `calc_cross_profit` (line 134-193).  The first component of
the result is the state of the caller's `data` after the call (the index
renaming of line 160-162 mutates the argument); the second is the returned
table, or the assertion error raised by `profit` when the threshold is
negative. -/
def calc_cross_profit (data : DataFrame) (policy : String)
    (broker_commission profit_threshold : ℚ) :
    DataFrame × Except String OutTable :=
  let mutated := setIndexName data
  let hasF := (applyPolicy policy (crossJoin mutated.rows)).2
  let result : Except String OutTable :=
    if profit_threshold < 0 then .error negThresholdMsg
    else .ok
      { hasFutureCol := hasF,
        rows := (labeledPairs data policy broker_commission profit_threshold).map
          fun p =>
            { datetime := p.1.datetime, price := p.1.price, rest := p.1.rest,
              future := if hasF then some p.1.futureInt else none,
              profit := p.2 } }
  (mutated, result)

/-- Number of rows of a successfully returned table (0 on error). -/
def okRowCount : Except String OutTable → Nat
  | .ok t => t.rows.length
  | .error _ => 0

/-- Two-row example table with timestamps 0 and 1 (minutes). -/
def exDF2 : DataFrame :=
  ⟨"datetime", [], [⟨0, 100, []⟩, ⟨1, 101, []⟩]⟩

/-- The 5-point scenario table of the spec: prices 100, 101, 99, 105, 102 at
1-minute spacing, timestamps 0..4 in minutes. -/
def exDF5 : DataFrame :=
  ⟨"datetime", [],
   [⟨0, 100, []⟩, ⟨1, 101, []⟩, ⟨2, 99, []⟩, ⟨3, 105, []⟩, ⟨4, 102, []⟩]⟩

/-! ### Feature builder (`make_buy_features`, line 85-131)

The input is the price column of a table with no missing values.  A pandas
`NaN` is `Option.none`.  The rolling means use the bohman weighting kernel,
whose weights are irrational trigonometric values; the value of the window
aggregate is therefore a parameter `agg` of the embedding.  Its presence is
modeled exactly: a full in-bounds window yields a number unless the kernel's
total weight is zero, in which case the pandas weighted mean divides by zero
and the whole column is `NaN` (see `bohmanZeroWeight`). -/

/-- Embedding of `lookahead_window` over a series of (timestamp, value)
pairs: reverse the series, shift it by `-shift` (`shift(-shift)` pulls value
`j + shift` to position `j`, missing past the end), take the trailing rolling
aggregate of length `window_size` with `min_periods=1` (a window aggregates
its present observations and is missing only when it has none), and reverse
back.  The rolling step keeps the index of the series it runs on, so the
output carries the input's timestamps.  The aggregation function is a
parameter, as in the source. -/
def lookahead_window (window_size shift : Nat) (agg : List ℚ → ℚ)
    (s : List (ℤ × ℚ)) : List (ℤ × Option ℚ) :=
  let rev := s.reverse
  let vals := rev.map Prod.snd
  let shifted := (List.range rev.length).map fun j => vals[j + shift]?
  let aggs := (List.range rev.length).map fun i =>
    let win := ((shifted.take (i + 1)).drop (i + 1 - window_size)).reduceOption
    if win.isEmpty then none else some (agg win)
  ((rev.map Prod.fst).zip aggs).reverse

/-- The value returned (before rounding) by `min_price_for_profit` is the
unique root of the profit function in the sell price, justifying the closed
form used in the embedding of the numerical solver. -/
theorem profitNet_root_unique (b c r : ℚ) (hc : c ≠ 1) :
    profitNet b r c = 0 ↔ r = b * (1 + c) / (1 - c) := by
  have h1 : (1 : ℚ) - c ≠ 0 := sub_ne_zero.mpr (Ne.symm hc)
  constructor
  · intro h
    rw [eq_div_iff h1]
    unfold profitNet at h
    linarith
  · intro h
    subst h
    unfold profitNet
    field_simp
    ring

/-! ### Claims C1, C3, C10 about `calc_cross_profit` -/

/-- C1 (counterexample): on a 2-row table the unrecognized non-empty policy
`"xyz"` retains all 4 pairs of the cross join, among them a pair whose sell
timestamp is not after its buy timestamp, while `"lookahead"` retains 1 pair:
an unrecognized policy does not behave like the lookahead policy. -/
theorem C1_counterexample :
    okRowCount (calc_cross_profit exDF2 "xyz" (3/1000) 0).2 = 4 ∧
    okRowCount (calc_cross_profit exDF2 "lookahead" (3/1000) 0).2 = 1 ∧
    ((calcRetained exDF2 "xyz").filter fun r => !r.future) ≠ [] := by decide

/-- C1 (amended): a policy that is none of the recognized aliases AND is
non-empty hits no branch of the dispatch: `calc_cross_profit` retains every
pair of the Cartesian product, with no `future` column (only an empty/falsy
policy falls back to lookahead behavior). -/
theorem C1_unrecognized_policy (data : DataFrame) (policy : String) (c t : ℚ)
    (ht : 0 ≤ t)
    (h1 : policy ≠ "lookahead") (h2 : policy ≠ "la") (h3 : policy ≠ "")
    (h4 : policy ≠ "lookbehind") (h5 : policy ≠ "lb")
    (h6 : policy ≠ "full") (h7 : policy ≠ "lookaround") (h8 : policy ≠ "lar") :
    (calc_cross_profit data policy c t).2 = .ok
      { hasFutureCol := false,
        rows := (crossJoin (setIndexName data).rows).map fun r =>
          { datetime := r.datetime, price := r.price, rest := r.rest,
            future := none, profit := profitFlag r.price r.price_sell c t } } := by
  unfold calc_cross_profit labeledPairs calcRetained applyPolicy
  simp [h1, h2, h3, h4, h5, h6, h7, h8, not_lt.mpr ht, List.map_map,
    Function.comp]

/-- Witness for `C1_unrecognized_policy` at the policy `"xyz"`. -/
theorem C1_unrecognized_policy_witness :
    ((0 : ℚ) ≤ 0 ∧ "xyz" ≠ "lookahead" ∧ "xyz" ≠ "la" ∧ "xyz" ≠ "" ∧
       "xyz" ≠ "lookbehind" ∧ "xyz" ≠ "lb" ∧ "xyz" ≠ "full" ∧
       "xyz" ≠ "lookaround" ∧ "xyz" ≠ "lar") ∧
    (calc_cross_profit exDF2 "xyz" (3/1000) 0).2 = .ok
      { hasFutureCol := false,
        rows := (crossJoin (setIndexName exDF2).rows).map fun r =>
          { datetime := r.datetime, price := r.price, rest := r.rest,
            future := none, profit := profitFlag r.price r.price_sell (3/1000) 0 } } :=
  ⟨by refine ⟨le_refl 0, ?_, ?_, ?_, ?_, ?_, ?_, ?_, ?_⟩ <;> decide,
   C1_unrecognized_policy exDF2 "xyz" (3/1000) 0 (le_refl 0) (by decide)
     (by decide) (by decide) (by decide) (by decide) (by decide) (by decide)
     (by decide)⟩

/-- C3: on the 5-point scenario with commission 0.003, threshold 0 and policy
`lookahead`, exactly 10 pairs are retained; the pair buying 99 at t=2 and
selling 105 at t=3 is flagged profitable (1), and the pair buying 105 at t=3
and selling 102 at t=4 is flagged unprofitable (0). -/
theorem C3_scenario :
    okRowCount (calc_cross_profit exDF5 "lookahead" (3/1000) 0).2 = 10 ∧
    ((labeledPairs exDF5 "lookahead" (3/1000) 0).filter fun p =>
        decide (p.1.datetime = 2 ∧ p.1.datetime_sell = 3)).map
      (fun p => (p.1.price, p.1.price_sell, p.2)) = [(99, 105, 1)] ∧
    ((labeledPairs exDF5 "lookahead" (3/1000) 0).filter fun p =>
        decide (p.1.datetime = 3 ∧ p.1.datetime_sell = 4)).map
      (fun p => (p.1.price, p.1.price_sell, p.2)) = [(105, 102, 0)] := by
  refine ⟨rfl, ?_, ?_⟩ <;> with_unfolding_all rfl

/-- C10: `calc_cross_profit` renames the caller's index to `datetime` in
place when it is named otherwise, and does not touch a table whose index is
already `datetime`; the rows (values and order) and the column list of the
argument are unchanged in either case. -/
theorem C10_index_rename (data : DataFrame) (policy : String) (c t : ℚ) :
    (if data.indexName = "datetime"
      then (calc_cross_profit data policy c t).1 = data
      else (calc_cross_profit data policy c t).1 =
        { data with indexName := "datetime" }) ∧
    (calc_cross_profit data policy c t).1.rows = data.rows ∧
    (calc_cross_profit data policy c t).1.otherCols = data.otherCols := by
  unfold calc_cross_profit setIndexName
  by_cases h : data.indexName = "datetime" <;> simp [h]

/-! ### Claim C2: temporal invariants of the policy filter -/

/-- Renaming the index does not touch the rows. -/
lemma setIndexName_rows (data : DataFrame) : (setIndexName data).rows = data.rows := by
  unfold setIndexName
  split <;> rfl

/-- Counting pairs with given buy and sell timestamps in a cross join of two
row lists multiplies the per-side counts. -/
lemma countP_cross_aux (outer inner : List Row) (a b : ℤ) :
    ((outer.flatMap fun x => inner.map fun s => x.toCross s).countP
      fun r => decide (r.datetime = a ∧ r.datetime_sell = b)) =
    (outer.countP fun r => decide (r.datetime = a)) *
      (inner.countP fun r => decide (r.datetime = b)) := by
  induction outer with
  | nil => simp
  | cons x xs ih =>
    rw [List.flatMap_cons, List.countP_append, List.countP_cons, ih,
      List.countP_map]
    by_cases hx : x.datetime = a
    · have hcomp : ∀ s : Row,
          decide ((x.toCross s).datetime = a ∧ (x.toCross s).datetime_sell = b) =
          decide (s.datetime = b) := by
        intro s
        simp [Row.toCross, hx]
      simp only [Function.comp_def, hcomp, hx]
      simp [Nat.add_mul, Nat.add_comm]
    · have hcomp : ∀ s : Row,
          decide ((x.toCross s).datetime = a ∧ (x.toCross s).datetime_sell = b) =
          false := by
        intro s
        simp [Row.toCross, hx]
      simp only [Function.comp_def, hcomp, hx]
      simp

/-- With pairwise-distinct timestamps, exactly one row carries a timestamp
that occurs in the table. -/
lemma countP_datetime_eq_one (rows : List Row) (a : ℤ)
    (hnd : (rows.map Row.datetime).Nodup) (ha : a ∈ rows.map Row.datetime) :
    (rows.countP fun r => decide (r.datetime = a)) = 1 := by
  induction rows with
  | nil => simp at ha
  | cons x xs ih =>
    rw [List.map_cons, List.nodup_cons] at hnd
    rw [List.countP_cons]
    by_cases hx : x.datetime = a
    · have hzero : (xs.countP fun r => decide (r.datetime = a)) = 0 := by
        rw [List.countP_eq_zero]
        intro r hr
        simp only [decide_eq_true_eq]
        intro hra
        exact hnd.1 (hx ▸ hra ▸ List.mem_map_of_mem Row.datetime hr)
      simp [hzero, hx]
    · have hmem : a ∈ xs.map Row.datetime := by
        rcases List.mem_cons.mp ha with h | h
        · exact absurd h.symm hx
        · exact h
      simp [ih hnd.2 hmem, hx]

/-- C2: every retained pair satisfies the active policy's temporal predicate.
Under `lookahead`/`la` every retained pair has sell timestamp strictly after
its buy timestamp; under `lookbehind`/`lb` no retained pair has sell
timestamp after its buy timestamp; under `full`/`lookaround`/`lar` (given
pairwise-distinct timestamps) every (buy, sell) pair of the Cartesian product
is retained exactly once and its emitted `future` value is 1 exactly when the
sell timestamp is after the buy timestamp. -/
theorem C2_policy_invariants (data : DataFrame) (policy : String)
    (hnd : (data.rows.map Row.datetime).Nodup) :
    (policy = "lookahead" ∨ policy = "la" →
      ∀ r ∈ calcRetained data policy, r.datetime < r.datetime_sell) ∧
    (policy = "lookbehind" ∨ policy = "lb" →
      ∀ r ∈ calcRetained data policy, r.datetime_sell ≤ r.datetime) ∧
    (policy = "full" ∨ policy = "lookaround" ∨ policy = "lar" →
      (∀ b ∈ data.rows, ∀ s ∈ data.rows,
        ((calcRetained data policy).countP fun r =>
          decide (r.datetime = b.datetime ∧ r.datetime_sell = s.datetime)) = 1) ∧
      ∀ r ∈ calcRetained data policy,
        r.futureInt = if r.datetime < r.datetime_sell then 1 else 0) := by
  refine ⟨?_, ?_, ?_⟩
  · rintro (h | h) r hr <;>
    · subst h
      unfold calcRetained applyPolicy at hr
      simp only [if_pos, String.reduceEq, or_false, false_or, or_true,
        if_true] at hr
      rw [List.mem_filter] at hr
      simpa [CrossRow.future] using hr.2
  · rintro (h | h) r hr <;>
    · subst h
      unfold calcRetained applyPolicy at hr
      simp only [String.reduceEq, or_self, or_false, false_or, if_false,
        if_true, ite_false, ite_true] at hr
      rw [List.mem_filter] at hr
      simp only [Bool.not_eq_true'] at hr
      have := hr.2
      simp only [CrossRow.future, decide_eq_false_iff_not, not_lt] at this
      exact this
  · intro h
    have hret : calcRetained data policy = crossJoin data.rows := by
      unfold calcRetained applyPolicy
      rcases h with h | h | h <;> subst h <;>
        simp [setIndexName_rows]
    constructor
    · intro b hb s hs
      rw [hret]
      unfold crossJoin
      rw [countP_cross_aux]
      rw [countP_datetime_eq_one data.rows b.datetime hnd
          (List.mem_map_of_mem Row.datetime hb),
        countP_datetime_eq_one data.rows s.datetime hnd
          (List.mem_map_of_mem Row.datetime hs)]
    · intro r _
      simp [CrossRow.futureInt, CrossRow.future]

/-- Witness for `C2_policy_invariants` on the two-row table with the `full`
policy. -/
theorem C2_policy_invariants_witness :
    (exDF2.rows.map Row.datetime).Nodup ∧
    (("full" : String) = "lookahead" ∨ ("full" : String) = "la" →
      ∀ r ∈ calcRetained exDF2 "full", r.datetime < r.datetime_sell) ∧
    (("full" : String) = "lookbehind" ∨ ("full" : String) = "lb" →
      ∀ r ∈ calcRetained exDF2 "full", r.datetime_sell ≤ r.datetime) ∧
    (("full" : String) = "full" ∨ ("full" : String) = "lookaround" ∨
        ("full" : String) = "lar" →
      (∀ b ∈ exDF2.rows, ∀ s ∈ exDF2.rows,
        ((calcRetained exDF2 "full").countP fun r =>
          decide (r.datetime = b.datetime ∧ r.datetime_sell = s.datetime)) = 1) ∧
      ∀ r ∈ calcRetained exDF2 "full",
        r.futureInt = if r.datetime < r.datetime_sell then 1 else 0) :=
  ⟨by decide, C2_policy_invariants exDF2 "full" (by decide)⟩

/-! ### Claims C5, C6, C7, C8 about the profit predicate and the solver -/

/-- C5 (counterexample): at buyPrice 0 ≥ 0, sellPrices 0 < 1 both ≥ 0 and
commissionRate 1 ≥ 0, the profit function is NOT strictly increasing in the
sell price: both pairs yield the same profit 0. -/
theorem C5_counterexample :
    (0 : ℚ) ≤ 0 ∧ (0 : ℚ) ≤ 1 ∧ (0 : ℚ) ≤ 1 ∧ (0 : ℚ) < 1 ∧
      ¬ profitNet 0 0 1 < profitNet 0 1 1 := by
  refine ⟨le_refl 0, by norm_num, by norm_num, by norm_num, ?_⟩
  unfold profitNet
  norm_num

/-- C5 (amended): for nonnegative prices and commission rate, the numeric
profit is strictly decreasing in the buy price for every commissionRate ≥ 0;
it is strictly increasing in the sell price when moreover the commission rate
is below 1 (the case the counterexample excludes). -/
theorem C5_profit_monotone (b s b1 b2 s1 s2 c : ℚ)
    (hb : 0 ≤ b) (hs : 0 ≤ s) (hb1 : 0 ≤ b1) (hs1 : 0 ≤ s1)
    (hc0 : 0 ≤ c) (hss : s1 < s2) (hbb : b1 < b2) :
    (c < 1 → profitNet b s1 c < profitNet b s2 c) ∧
    profitNet b2 s c < profitNet b1 s c := by
  unfold profitNet
  constructor
  · intro hc1
    nlinarith [mul_pos (sub_pos.mpr hss) (sub_pos.mpr hc1)]
  · nlinarith [mul_pos (sub_pos.mpr hbb) (show (0 : ℚ) < 1 + c by linarith)]

/-- Witness for `C5_profit_monotone` at concrete inputs. -/
theorem C5_profit_monotone_witness :
    ((0 : ℚ) ≤ 3 ∧ (0 : ℚ) ≤ 4 ∧ (0 : ℚ) ≤ 1 ∧ (0 : ℚ) ≤ 1 ∧
       (0 : ℚ) ≤ 1/2 ∧ (1 : ℚ) < 2 ∧ (1 : ℚ) < 5) ∧
    (((1/2 : ℚ) < 1 → profitNet 3 1 (1/2) < profitNet 3 2 (1/2)) ∧
       profitNet 5 4 (1/2) < profitNet 1 4 (1/2)) :=
  ⟨by norm_num,
   C5_profit_monotone 3 4 1 5 1 2 (1/2) (by norm_num) (by norm_num) (by norm_num)
     (by norm_num) (by norm_num) (by norm_num) (by norm_num)⟩

/-- C6: with a nonnegative threshold, `profit` returns the net value
`sellPrice - buyPrice - (sellPrice + buyPrice) * commissionRate` in numeric
mode, returns the fact `net ≥ threshold` in boolean mode, and at threshold 0
the boolean mode result is exactly the fact that the numeric result is ≥ 0. -/
theorem C6_profit_formula (b s c t : ℚ) (ht : 0 ≤ t) :
    profit b s c t false = .ok (.num (s - b - (s + b) * c)) ∧
    profit b s c t true = .ok (.flag (decide (profitNet b s c ≥ t))) ∧
    profit b s c 0 true = .ok (.flag (decide (profitNet b s c ≥ 0))) := by
  have hnt : ¬ t < 0 := not_lt.mpr ht
  unfold profit profitNet
  simp [hnt]

/-- Witness for `C6_profit_formula` at concrete inputs. -/
theorem C6_profit_formula_witness :
    (0 : ℚ) ≤ 1 ∧
    (profit 2 5 (1/10) 1 false = .ok (.num (5 - 2 - (5 + 2) * (1/10))) ∧
     profit 2 5 (1/10) 1 true = .ok (.flag (decide (profitNet 2 5 (1/10) ≥ 1))) ∧
     profit 2 5 (1/10) 0 true = .ok (.flag (decide (profitNet 2 5 (1/10) ≥ 0)))) :=
  ⟨by norm_num, C6_profit_formula 2 5 (1/10) 1 (by norm_num)⟩

/-- C7: `profit` fails with the assertion error exactly when the threshold is
negative; for a nonnegative threshold the call succeeds, in both modes. -/
theorem C7_threshold_guard (b s c t : ℚ) (ab : Bool) :
    exceptIsOk (profit b s c t ab) = decide (0 ≤ t) := by
  unfold profit exceptIsOk
  by_cases h : t < 0
  · simp [h, not_le.mpr h]
  · simp [h, not_lt.mp h]

/-- C8: `min_price_for_profit 100 0.003 = 100.60`, and for every positive buy
price and commission rate in `[0, 1)` the profit at the returned sell price is
within `0.01` of zero (the returned value is the rounded breakeven price). -/
theorem C8_breakeven (p c : ℚ) (hp : 0 < p) (hc0 : 0 ≤ c) (hc1 : c < 1) :
    min_price_for_profit 100 (3/1000) = 1006/10 ∧
    |profitNet p (min_price_for_profit p c) c| ≤ 1/100 := by
  constructor
  · unfold min_price_for_profit round2
    norm_num [round_eq]
  · have h1 : (1 : ℚ) - c ≠ 0 := by intro h; linarith
    have hr1 : p * (1 + c) / (1 - c) * (1 - c) = p * (1 + c) :=
      div_mul_cancel₀ _ h1
    have hkey : profitNet p (min_price_for_profit p c) c =
        (round2 (p * (1 + c) / (1 - c)) - p * (1 + c) / (1 - c)) * (1 - c) := by
      unfold profitNet min_price_for_profit
      linear_combination hr1
    rw [hkey, abs_mul]
    have h2 : |round2 (p * (1 + c) / (1 - c)) - p * (1 + c) / (1 - c)| ≤ 1/200 := by
      unfold round2
      have h3 := abs_sub_round (p * (1 + c) / (1 - c) * 100)
      rw [abs_sub_comm] at h3
      have h4 : (round (p * (1 + c) / (1 - c) * 100) : ℚ) / 100 -
          p * (1 + c) / (1 - c) =
          ((round (p * (1 + c) / (1 - c) * 100) : ℚ) -
            p * (1 + c) / (1 - c) * 100) / 100 := by ring
      rw [h4, abs_div]
      rw [show |(100 : ℚ)| = 100 by norm_num]
      linarith
    have h5 : |(1 : ℚ) - c| ≤ 1 := by
      rw [abs_of_nonneg (by linarith)]
      linarith
    calc |round2 (p * (1 + c) / (1 - c)) - p * (1 + c) / (1 - c)| * |1 - c|
        ≤ (1/200) * 1 := by
          apply mul_le_mul h2 h5 (abs_nonneg _) (by norm_num)
      _ ≤ 1/100 := by norm_num

/-- Witness for `C8_breakeven` at the concrete input of the claim. -/
theorem C8_breakeven_witness :
    ((0 : ℚ) < 100 ∧ (0 : ℚ) ≤ 3/1000 ∧ (3/1000 : ℚ) < 1) ∧
    (min_price_for_profit 100 (3/1000) = 1006/10 ∧
     |profitNet 100 (min_price_for_profit 100 (3/1000)) (3/1000)| ≤ 1/100) :=
  ⟨by norm_num, C8_breakeven 100 (3/1000) (by norm_num) (by norm_num) (by norm_num)⟩

/-! ### Claim C4: row count of the feature builder -/

/-- Indexing a list at each position of its range yields its elements. -/
lemma map_range_getElem (l : List ℚ) :
    (List.range l.length).map (fun j => l[j]?) = l.map some := by
  apply List.ext_getElem
  · simp
  · intro k h1 h2
    simp only [List.length_map, List.length_range] at h1
    simp only [List.getElem_map, List.getElem_range]
    exact List.getElem?_eq_getElem h1

/-- Removing the option layer undoes `map some`. -/
lemma reduceOption_map_some (l : List ℚ) : (l.map some).reduceOption = l := by
  induction l with
  | nil => rfl
  | cons x xs ih => simp [List.reduceOption_cons_of_some, ih]

/-- Shrinking a `take` bound to the list length changes nothing. -/
lemma take_min_length (l : List ℚ) (a : Nat) : l.take (min a l.length) = l.take a := by
  rcases le_total a l.length with h | h
  · rw [min_eq_left h]
  · rw [min_eq_right h, List.take_length, List.take_of_length_le h]

/-- Normal form of `lookahead_window` at shift 0 with the shift layer evaluated away: the
shifted series is the series itself, so every window is fully present and
`reduceOption` is the identity on it. -/
lemma lookahead_window_zero (w : Nat) (agg : List ℚ → ℚ) (s : List (ℤ × ℚ)) :
    lookahead_window w 0 agg s =
      ((s.reverse.map Prod.fst).zip ((List.range s.length).map fun j =>
        if (((s.reverse.map Prod.snd).take (j + 1)).drop (j + 1 - w)).isEmpty
        then none
        else some (agg (((s.reverse.map Prod.snd).take (j + 1)).drop (j + 1 - w))))).reverse := by
  unfold lookahead_window
  dsimp only
  have hv : (s.reverse.map Prod.snd).length = s.length := by simp
  have hsh : (List.range s.reverse.length).map
      (fun j => (s.reverse.map Prod.snd)[j + 0]?) =
      (s.reverse.map Prod.snd).map some := by
    simp only [Nat.add_zero, List.length_reverse]
    rw [← hv]
    exact map_range_getElem (s.reverse.map Prod.snd)
  rw [hsh]
  simp only [List.length_reverse]
  congr 2
  apply List.map_congr_left
  intro j _
  rw [← List.map_take, ← List.map_drop, reduceOption_map_some]

/-- C9: at shift 0, the lookahead window aggregator returns a series carrying
exactly the input's timestamps, one output per input position, and the value
at position `i` aggregates the window of the next `window_size` observations
— truncated to however many observations remain near the chronological end,
never dropped (the window passed to the aggregate is in reversed order, as
produced by the reverse-rolling-reverse implementation). -/
theorem C9_lookahead_alignment (w : Nat) (agg : List ℚ → ℚ)
    (s : List (ℤ × ℚ)) (i : Nat) (hw : 1 ≤ w) (hi : i < s.length) :
    (lookahead_window w 0 agg s).map Prod.fst = s.map Prod.fst ∧
    (lookahead_window w 0 agg s)[i]? =
      s[i]?.map (fun p =>
        (p.1, some (agg ((((s.map Prod.snd).drop i).take w).reverse)))) := by
  rw [lookahead_window_zero]
  have hA : (s.reverse.map Prod.fst).length = s.length := by simp
  have hG : ((List.range s.length).map fun j =>
      if (((s.reverse.map Prod.snd).take (j + 1)).drop (j + 1 - w)).isEmpty
      then none
      else some (agg (((s.reverse.map Prod.snd).take (j + 1)).drop (j + 1 - w)))).length
      = s.length := by simp
  have hzip : ((s.reverse.map Prod.fst).zip ((List.range s.length).map fun j =>
      if (((s.reverse.map Prod.snd).take (j + 1)).drop (j + 1 - w)).isEmpty
      then none
      else some (agg (((s.reverse.map Prod.snd).take (j + 1)).drop (j + 1 - w))))).length
      = s.length := by
    rw [List.length_zip, hA, hG, min_self]
  constructor
  · rw [List.map_reverse, List.map_fst_zip _ _ (by rw [hA, hG]),
      List.map_reverse, List.reverse_reverse]
  · rw [List.getElem?_reverse (by rw [hzip]; exact hi), hzip]
    have hj : s.length - 1 - i < s.length := by omega
    rw [List.getElem?_eq_getElem (by rw [hzip]; exact hj)]
    rw [List.getElem_zip]
    rw [List.getElem?_eq_getElem hi]
    have hfst : (s.reverse.map Prod.fst)[s.length - 1 - i] = (s[i]).1 := by
      have h1 : s.length - 1 - (s.length - 1 - i) = i := by omega
      simp only [List.getElem_map, List.getElem_reverse, h1]
    have hwin : (((s.reverse.map Prod.snd).take (s.length - 1 - i + 1)).drop
        (s.length - 1 - i + 1 - w)) =
        (((s.map Prod.snd).drop i).take w).reverse := by
      have hulen : (s.map Prod.snd).length = s.length := by simp
      have h2 : (s.map Prod.snd).length - (s.length - 1 - i + 1) = i := by
        rw [hulen]; omega
      rw [List.map_reverse, List.take_reverse, h2, List.drop_reverse]
      congr 1
      have h3 : ((s.map Prod.snd).drop i).length = s.length - i := by simp
      have h4 : ((s.map Prod.snd).drop i).length - (s.length - 1 - i + 1 - w) =
          min w ((s.map Prod.snd).drop i).length := by
        rw [h3]; omega
      rw [h4, take_min_length]
    have hne : ((((s.map Prod.snd).drop i).take w).reverse).isEmpty = false := by
      have h5 : ((((s.map Prod.snd).drop i).take w).reverse).length =
          min w (s.length - i) := by simp
      rw [List.isEmpty_eq_false]
      intro hnil
      rw [hnil] at h5
      simp at h5
      omega
    rw [hfst]
    simp only [List.getElem_map, List.getElem_range]
    rw [hwin, hne]
    simp [Bool.false_eq_true, if_false]

/-- Witness for `C9_lookahead_alignment` on a three-point series with window
size 2 and the sum aggregate, at position 1. -/
theorem C9_lookahead_alignment_witness :
    ((1 : Nat) ≤ 2 ∧ 1 < ([(0, 10), (1, 20), (2, 30)] : List (ℤ × ℚ)).length) ∧
    ((lookahead_window 2 0 List.sum [(0, 10), (1, 20), (2, 30)]).map Prod.fst =
       ([(0, 10), (1, 20), (2, 30)] : List (ℤ × ℚ)).map Prod.fst ∧
     (lookahead_window 2 0 List.sum [(0, 10), (1, 20), (2, 30)])[1]? =
       (([(0, 10), (1, 20), (2, 30)] : List (ℤ × ℚ))[1]?).map (fun p =>
         (p.1, some (List.sum ((((([(0, 10), (1, 20), (2, 30)] :
           List (ℤ × ℚ)).map Prod.snd).drop 1).take 2).reverse))))) :=
  ⟨⟨by decide, by decide⟩,
   C9_lookahead_alignment 2 List.sum [(0, 10), (1, 20), (2, 30)] 1
     (by decide) (by decide)⟩

end Catcher
